import Mathlib

/-!
Shallow embedding of the NAT-PMP client protocol layer
(`src/asynchronous.rs`): request wire-encoding, response wire-decoding
with result-code classification, and the bounded receive-retry loop.

Bytes are modelled as `Nat` (values < 256 where the source has `u8`),
buffers as `List Nat`, and the datagram transport as explicit function
parameters: a send is a function from the outgoing bytes to
`Option Nat` (`none` = I/O error, `some n` = `Ok(n)` bytes written),
and the sequence of receive attempts is a list of outcomes, one per
iteration of the retry loop.
-/

namespace Natpmp

/-- The protocol selector for a port-mapping request (crate enum
`Protocol`, declared outside `src/`; its two variants are used at
`asynchronous.rs` lines 69-72). -/
inductive Protocol
  | UDP
  | TCP
  deriving DecidableEq, Repr

/-- The crate's error taxonomy (enum `Error`, declared outside `src/`;
the variants below are exactly the ones named in `asynchronous.rs` and
`a_std.rs`). -/
inductive Error
  | NATPMP_ERR_SOCKETERROR
  | NATPMP_ERR_CONNECTERR
  | NATPMP_ERR_NETWORKFAILURE
  | NATPMP_ERR_UNSUPPORTEDVERSION
  | NATPMP_ERR_UNSUPPORTEDOPCODE
  | NATPMP_ERR_NOTAUTHORIZED
  | NATPMP_ERR_OUTOFRESOURCES
  | NATPMP_ERR_UNDEFINEDERROR
  | NATPMP_ERR_RECVFROM
  deriving DecidableEq, Repr

/-- Public-address reply payload (struct `GatewayResponse`).  The
source stores `public_address : Ipv4Addr`, built with
`Ipv4Addr::from(u32)`; we model the address by that 32-bit value. -/
structure GatewayResponse where
  epoch : Nat
  public_address : Nat
  deriving DecidableEq, Repr

/-- Mapping reply payload (struct `MappingResponse`).  The source
stores `lifetime : Duration` built with
`Duration::from_secs(u64::from(lifetime))`; we model it by the number
of seconds. -/
structure MappingResponse where
  epoch : Nat
  private_port : Nat
  public_port : Nat
  lifetime : Nat
  deriving DecidableEq, Repr

/-- Decoded response (enum `Response`): a public-address reply, or a
mapping reply tagged with its protocol. -/
inductive Response
  | Gateway (g : GatewayResponse)
  | UDP (m : MappingResponse)
  | TCP (m : MappingResponse)
  deriving DecidableEq, Repr

/-- Modelled from the spec: the source reads multi-byte fields with
`uN::from_be(convert_to(&buf[i..j]))` where `convert_to` is a crate
helper outside `src/`; the spec fixes the interpretation as big-endian
("16-bit big-endian result code", "32-bit big-endian epoch").  `be16`
is the value of two bytes read big-endian. -/
def be16 (b0 b1 : Nat) : Nat :=
  b0 * 256 + b1

/-- Modelled from the spec: value of four bytes read big-endian (see
`be16`). -/
def be32 (b0 b1 b2 b3 : Nat) : Nat :=
  b0 * 16777216 + b1 * 65536 + b2 * 256 + b3

/-- The `match resultcode` arms of `read_response_or_retry`
(`asynchronous.rs` lines 117-124): classification of a nonzero result
code into a protocol error.  (The source only reaches this match with
`resultcode != 0`.) -/
def result_code_error (resultcode : Nat) : Error :=
  match resultcode with
  | 1 => .NATPMP_ERR_UNSUPPORTEDVERSION
  | 2 => .NATPMP_ERR_NOTAUTHORIZED
  | 3 => .NATPMP_ERR_NETWORKFAILURE
  | 4 => .NATPMP_ERR_OUTOFRESOURCES
  | 5 => .NATPMP_ERR_UNSUPPORTEDOPCODE
  | _ => .NATPMP_ERR_UNDEFINEDERROR

/-- The pure decoding part of `read_response_or_retry`
(`asynchronous.rs` lines 105-151), applied to the 16-byte receive
buffer after a successful `recv`: version check, opcode check, result
code classification, then field extraction into a `Gateway` or
`Mapping` response according to `rsp_type = buf[1] & 0x7f`. -/
def decode_response (buf : List Nat) : Except Error Response :=
  if buf.getD 0 0 ≠ 0 then
    .error .NATPMP_ERR_UNSUPPORTEDVERSION
  else if buf.getD 1 0 < 128 ∨ 130 < buf.getD 1 0 then
    .error .NATPMP_ERR_UNSUPPORTEDOPCODE
  else
    let resultcode := be16 (buf.getD 2 0) (buf.getD 3 0)
    if resultcode ≠ 0 then
      .error (result_code_error resultcode)
    else
      let epoch := be32 (buf.getD 4 0) (buf.getD 5 0) (buf.getD 6 0) (buf.getD 7 0)
      let rsp_type := (buf.getD 1 0) &&& 0x7f
      if rsp_type = 0 then
        .ok (.Gateway
          { epoch := epoch
            public_address :=
              be32 (buf.getD 8 0) (buf.getD 9 0) (buf.getD 10 0) (buf.getD 11 0) })
      else
        let private_port := be16 (buf.getD 8 0) (buf.getD 9 0)
        let public_port := be16 (buf.getD 10 0) (buf.getD 11 0)
        let lifetime := be32 (buf.getD 12 0) (buf.getD 13 0) (buf.getD 14 0) (buf.getD 15 0)
        let m : MappingResponse :=
          { epoch := epoch
            private_port := private_port
            public_port := public_port
            lifetime := lifetime }
        if rsp_type = 1 then .ok (.UDP m) else .ok (.TCP m)

/-- The 16-byte receive buffer contents after a successful `recv` that
wrote `data` into its front: `read_response_or_retry` initialises
`buf = [0u8; 16]` (line 99) and a datagram of fewer than 16 bytes
leaves the remaining positions at their initial zero. -/
def recv_buffer (data : List Nat) : List Nat :=
  data ++ List.replicate (16 - data.length) 0

/-- The retry loop of `read_response_or_retry` (`asynchronous.rs`
lines 98-157).  `attempts` is the sequence of transport `recv`
outcomes offered to the successive iterations of the
`while retries < NATPMP_MAX_ATTEMPS` loop, so its length is the
configured maximum attempt count (`NATPMP_MAX_ATTEMPS`, a crate
constant declared outside `src/`; the spec leaves its value abstract,
so theorems quantify over the list).  `none` is `Err(_)` (the source
only increments `retries`); `some (data, n)` is `Ok(n)` where `data`
is what the transport wrote into the buffer — the source discards the
binder `n` and decodes the whole 16-byte buffer. -/
def read_response_or_retry : List (Option (List Nat × Nat)) → Except Error Response
  | [] => .error .NATPMP_ERR_RECVFROM
  | none :: rest => read_response_or_retry rest
  | some (data, _) :: _ => decode_response (recv_buffer data)

/-- The 12-byte buffer built by `send_port_mapping_request`
(`asynchronous.rs` lines 68-85): `request = [0u8; 12]`, then the
opcode and the big-endian port and lifetime fields are written over
the zero initialisation (bytes 0, 2, 3 stay 0). -/
def port_mapping_request (protocol : Protocol)
    (private_port public_port lifetime : Nat) : List Nat :=
  [0,
   (match protocol with
    | .UDP => 1
    | _ => 2),
   0, 0,
   (private_port >>> 8) &&& 0xff, private_port &&& 0xff,
   (public_port >>> 8) &&& 0xff, public_port &&& 0xff,
   (lifetime >>> 24) &&& 0xff, (lifetime >>> 16) &&& 0xff,
   (lifetime >>> 8) &&& 0xff, lifetime &&& 0xff]

/-- `send_public_address_request` (`asynchronous.rs` lines 48-59):
sends the 2-byte request `[0u8; 2]`; a transport send error, or a
reported write count different from the request length, is
`NATPMP_ERR_NETWORKFAILURE`.  `send` models the transport's send:
`none` = I/O failure, `some n` = `Ok(n)`. -/
def send_public_address_request (send : List Nat → Option Nat) :
    Except Error Unit :=
  let request : List Nat := List.replicate 2 0
  match send request with
  | none => .error .NATPMP_ERR_NETWORKFAILURE
  | some n =>
    if n ≠ request.length then .error .NATPMP_ERR_NETWORKFAILURE
    else .ok ()

/-- `send_port_mapping_request` (`asynchronous.rs` lines 61-96):
builds `port_mapping_request` and sends it, with the same
partial-write rule as `send_public_address_request`. -/
def send_port_mapping_request (send : List Nat → Option Nat)
    (protocol : Protocol) (private_port public_port lifetime : Nat) :
    Except Error Unit :=
  let request := port_mapping_request protocol private_port public_port lifetime
  match send request with
  | none => .error .NATPMP_ERR_NETWORKFAILURE
  | some n =>
    if n ≠ request.length then .error .NATPMP_ERR_NETWORKFAILURE
    else .ok ()

/-- Modelled from the spec: the "(hypothetical) request mirror" of
§8 — a decoder for the 12-byte mapping request that reads the opcode
byte back to a protocol and the big-endian fields back to the ports
and lifetime. -/
def decode_port_mapping_request (buf : List Nat) :
    Protocol × Nat × Nat × Nat :=
  ((if buf.getD 1 0 = 1 then Protocol.UDP else Protocol.TCP),
   be16 (buf.getD 4 0) (buf.getD 5 0),
   be16 (buf.getD 6 0) (buf.getD 7 0),
   be32 (buf.getD 8 0) (buf.getD 9 0) (buf.getD 10 0) (buf.getD 11 0))

theorem land_255_eq_mod (x : Nat) : x &&& 0xff = x % 256 := by
  have h : (0xff : Nat) = 2 ^ 8 - 1 := rfl
  rw [h, Nat.and_pow_two_sub_one_eq_mod]

theorem shiftRight_land_255 (x i : Nat) : (x >>> i) &&& 0xff = x / 2 ^ i % 256 := by
  rw [land_255_eq_mod, Nat.shiftRight_eq_div_pow]

/-- C6: a received buffer whose version byte (byte 0) is nonzero
decodes to `UnsupportedVersion`, regardless of the remaining bytes. -/
theorem decode_response_bad_version (buf : List Nat)
    (h : buf.getD 0 0 ≠ 0) :
    decode_response buf = .error .NATPMP_ERR_UNSUPPORTEDVERSION := by
  unfold decode_response
  exact if_pos h

theorem decode_response_bad_version_witness :
    decode_response [1, 128, 0, 0] = .error .NATPMP_ERR_UNSUPPORTEDVERSION :=
  decode_response_bad_version [1, 128, 0, 0] (by decide)

/-- C7: a received buffer with version byte 0 and an opcode byte
outside the inclusive range [128,130] decodes to `UnsupportedOpcode`,
regardless of the remaining bytes. -/
theorem decode_response_bad_opcode (buf : List Nat)
    (h0 : buf.getD 0 0 = 0)
    (h1 : buf.getD 1 0 < 128 ∨ 130 < buf.getD 1 0) :
    decode_response buf = .error .NATPMP_ERR_UNSUPPORTEDOPCODE := by
  unfold decode_response
  rw [if_neg (not_ne_iff.mpr h0)]
  exact if_pos h1

theorem decode_response_bad_opcode_witness :
    decode_response [0, 131, 0, 0] = .error .NATPMP_ERR_UNSUPPORTEDOPCODE :=
  decode_response_bad_opcode [0, 131, 0, 0] (by decide) (by decide)

/-- C2: on a buffer with version 0 and opcode in [128,130] whose
big-endian result code (bytes 2-3) is nonzero, the decoder fails with
the error classified by `result_code_error`, and that classification
maps 1 to UnsupportedVersion, 2 to NotAuthorized, 3 to NetworkFailure,
4 to OutOfResources, 5 to UnsupportedOpcode, and every other nonzero
code to UndefinedError. -/
theorem decode_response_result_code (buf : List Nat)
    (h0 : buf.getD 0 0 = 0)
    (h1 : 128 ≤ buf.getD 1 0) (h1' : buf.getD 1 0 ≤ 130)
    (hrc : be16 (buf.getD 2 0) (buf.getD 3 0) ≠ 0) :
    decode_response buf =
      .error (result_code_error (be16 (buf.getD 2 0) (buf.getD 3 0))) ∧
    result_code_error 1 = .NATPMP_ERR_UNSUPPORTEDVERSION ∧
    result_code_error 2 = .NATPMP_ERR_NOTAUTHORIZED ∧
    result_code_error 3 = .NATPMP_ERR_NETWORKFAILURE ∧
    result_code_error 4 = .NATPMP_ERR_OUTOFRESOURCES ∧
    result_code_error 5 = .NATPMP_ERR_UNSUPPORTEDOPCODE ∧
    ∀ rc : Nat, rc ≠ 0 → rc ≠ 1 → rc ≠ 2 → rc ≠ 3 → rc ≠ 4 → rc ≠ 5 →
      result_code_error rc = .NATPMP_ERR_UNDEFINEDERROR := by
  refine ⟨?_, rfl, rfl, rfl, rfl, rfl, ?_⟩
  · unfold decode_response
    rw [if_neg (not_ne_iff.mpr h0),
      if_neg (by omega : ¬(buf.getD 1 0 < 128 ∨ 130 < buf.getD 1 0))]
    exact if_pos hrc
  · intro rc hc0 hc1 hc2 hc3 hc4 hc5
    rcases rc with _ | _ | _ | _ | _ | _ | n
    · exact absurd rfl hc0
    · exact absurd rfl hc1
    · exact absurd rfl hc2
    · exact absurd rfl hc3
    · exact absurd rfl hc4
    · exact absurd rfl hc5
    · rfl

theorem decode_response_result_code_witness :
    decode_response [0, 128, 0, 2] = .error .NATPMP_ERR_NOTAUTHORIZED ∧
    result_code_error 7 = .NATPMP_ERR_UNDEFINEDERROR := by
  have h := decode_response_result_code [0, 128, 0, 2]
    (by decide) (by decide) (by decide) (by decide)
  exact ⟨h.1, h.2.2.2.2.2.2 7 (by decide) (by decide) (by decide) (by decide)
    (by decide) (by decide)⟩

/-- C4: a 16-byte buffer with version 0, opcode 128 and result code 0
decodes to a Gateway response with the big-endian epoch from bytes 4-7
and the public address from the big-endian value of bytes 8-11. -/
theorem decode_response_gateway
    (b2 b3 b4 b5 b6 b7 b8 b9 b10 b11 b12 b13 b14 b15 : Nat)
    (hrc : be16 b2 b3 = 0) :
    decode_response
        [0, 128, b2, b3, b4, b5, b6, b7, b8, b9, b10, b11, b12, b13, b14, b15] =
      .ok (.Gateway
        { epoch := be32 b4 b5 b6 b7
          public_address := be32 b8 b9 b10 b11 }) := by
  simp [decode_response, hrc, (show (128 : Nat) &&& 127 = 0 by decide)]

theorem decode_response_gateway_witness :
    decode_response [0, 128, 0, 0, 0, 0, 0, 7, 1, 2, 3, 4, 0, 0, 0, 0] =
      .ok (.Gateway { epoch := 7, public_address := 16909060 }) :=
  decode_response_gateway 0 0 0 0 0 7 1 2 3 4 0 0 0 0 (by decide)

/-- C5: a 16-byte buffer with version 0, result code 0 and opcode 129
or 130 decodes to a Mapping response with big-endian epoch from bytes
4-7, private_port from bytes 8-9, public_port from bytes 10-11 and
lifetime from bytes 12-15, tagged UDP for opcode 129 and TCP for
opcode 130. -/
theorem decode_response_mapping
    (op b2 b3 b4 b5 b6 b7 b8 b9 b10 b11 b12 b13 b14 b15 : Nat)
    (hop : op = 129 ∨ op = 130)
    (hrc : be16 b2 b3 = 0) :
    decode_response
        [0, op, b2, b3, b4, b5, b6, b7, b8, b9, b10, b11, b12, b13, b14, b15] =
      .ok (if op = 129 then
            Response.UDP
              { epoch := be32 b4 b5 b6 b7
                private_port := be16 b8 b9
                public_port := be16 b10 b11
                lifetime := be32 b12 b13 b14 b15 }
           else
            Response.TCP
              { epoch := be32 b4 b5 b6 b7
                private_port := be16 b8 b9
                public_port := be16 b10 b11
                lifetime := be32 b12 b13 b14 b15 }) := by
  rcases hop with h | h <;> subst h <;>
    simp [decode_response, hrc, (show (129 : Nat) &&& 127 = 1 by decide),
      (show (130 : Nat) &&& 127 = 2 by decide)]

theorem decode_response_mapping_witness :
    decode_response [0, 129, 0, 0, 0, 0, 0, 9, 0, 80, 1, 187, 0, 0, 14, 16] =
      .ok (.UDP { epoch := 9, private_port := 80, public_port := 443,
                  lifetime := 3600 }) := by
  have h := decode_response_mapping 129 0 0 0 0 0 9 0 80 1 187 0 0 14 16
    (Or.inl rfl) (by decide)
  simpa [be16, be32] using h

/-- C1: if every transport receive attempt fails, the retry loop
exhausts the configured maximum and returns `RecvFromError`; if some
attempt succeeds after only failures, the decoder's result on that
datagram is returned unchanged, without consuming any later attempt. -/
theorem read_response_or_retry_spec
    (attempts : List (Option (List Nat × Nat))) :
    ((∀ a ∈ attempts, a = none) →
      read_response_or_retry attempts = .error .NATPMP_ERR_RECVFROM) ∧
    (∀ (pre post : List (Option (List Nat × Nat))) (data : List Nat) (n : Nat),
      attempts = pre ++ some (data, n) :: post →
      (∀ a ∈ pre, a = none) →
      read_response_or_retry attempts = decode_response (recv_buffer data)) := by
  induction attempts with
  | nil =>
    refine ⟨fun _ => rfl, fun pre post data n h _ => ?_⟩
    exact absurd h (by simp)
  | cons a rest ih =>
    constructor
    · intro hall
      have ha : a = none := hall a (List.mem_cons_self a rest)
      subst ha
      show read_response_or_retry rest = _
      exact ih.1 fun x hx => hall x (List.mem_cons_of_mem _ hx)
    · intro pre post data n heq hpre
      cases pre with
      | nil =>
        simp only [List.nil_append, List.cons.injEq] at heq
        obtain ⟨ha, _⟩ := heq
        subst ha
        rfl
      | cons p pre2 =>
        simp only [List.cons_append, List.cons.injEq] at heq
        obtain ⟨hap, hr⟩ := heq
        have hp : p = none := hpre p (List.mem_cons_self p pre2)
        subst hap
        subst hp
        show read_response_or_retry rest = _
        exact ih.2 pre2 post data n hr
          fun x hx => hpre x (List.mem_cons_of_mem _ hx)

theorem read_response_or_retry_spec_witness :
    read_response_or_retry [none, none] = .error .NATPMP_ERR_RECVFROM ∧
    read_response_or_retry [none, some ([1, 131], 2), none] =
      decode_response (recv_buffer [1, 131]) :=
  ⟨(read_response_or_retry_spec [none, none]).1 (by simp),
   (read_response_or_retry_spec [none, some ([1, 131], 2), none]).2
     [none] [none] [1, 131] 2 rfl (by simp)⟩

theorem port_mapping_request_length (protocol : Protocol)
    (private_port public_port lifetime : Nat) :
    (port_mapping_request protocol private_port public_port lifetime).length = 12 :=
  rfl

theorem be16_split (p : Nat) (hp : p < 2 ^ 16) :
    be16 ((p >>> 8) &&& 0xff) (p &&& 0xff) = p := by
  rw [be16, shiftRight_land_255, land_255_eq_mod]
  omega

theorem be32_split (l : Nat) (hl : l < 2 ^ 32) :
    be32 ((l >>> 24) &&& 0xff) ((l >>> 16) &&& 0xff)
      ((l >>> 8) &&& 0xff) (l &&& 0xff) = l := by
  rw [be32, shiftRight_land_255, shiftRight_land_255, shiftRight_land_255,
    land_255_eq_mod]
  omega

/-- C3: `send_port_mapping_request` builds exactly the 12-byte wire
buffer — version 0, opcode 1 (UDP) or 2 (TCP), two reserved zero
bytes, big-endian private port, public port and lifetime — and passes
exactly that buffer to the transport send. -/
theorem send_port_mapping_request_buffer (protocol : Protocol)
    (private_port public_port lifetime : Nat)
    (hp : private_port < 2 ^ 16) (hq : public_port < 2 ^ 16)
    (hl : lifetime < 2 ^ 32) :
    port_mapping_request protocol private_port public_port lifetime =
      [0, (if protocol = .UDP then 1 else 2), 0, 0,
       private_port / 256, private_port % 256,
       public_port / 256, public_port % 256,
       lifetime / 2 ^ 24, lifetime / 2 ^ 16 % 256,
       lifetime / 2 ^ 8 % 256, lifetime % 256] ∧
    (port_mapping_request protocol private_port public_port lifetime).length = 12 ∧
    ∀ send : List Nat → Option Nat,
      send_port_mapping_request send protocol private_port public_port lifetime =
        match send (port_mapping_request protocol private_port public_port lifetime) with
        | none => .error .NATPMP_ERR_NETWORKFAILURE
        | some n =>
          if n ≠ 12 then .error .NATPMP_ERR_NETWORKFAILURE else .ok () := by
  refine ⟨?_, rfl, ?_⟩
  · have hop : (if protocol = Protocol.UDP then (1 : Nat) else 2) =
        (match protocol with
         | Protocol.UDP => 1
         | _ => 2) := by
      cases protocol <;> rfl
    rw [hop]
    unfold port_mapping_request
    simp only [shiftRight_land_255, land_255_eq_mod, List.cons.injEq]
    norm_num
    omega
  · intro send
    simp only [send_port_mapping_request]
    cases send (port_mapping_request protocol private_port public_port lifetime) with
    | none => rfl
    | some n => rfl

theorem send_port_mapping_request_buffer_witness :
    port_mapping_request .UDP 80 443 3600 =
      [0, 1, 0, 0, 0, 80, 1, 187, 0, 0, 14, 16] := by
  have h := send_port_mapping_request_buffer .UDP 80 443 3600
    (by decide) (by decide) (by norm_num)
  exact h.1.trans (by norm_num)

/-- C8: for both request senders, a transport send failure or a
reported write count different from the request length (2 for the
public-address request, 12 for the mapping request) yields
`NetworkFailure`; a full-length write yields success. -/
theorem send_request_outcomes (send : List Nat → Option Nat)
    (protocol : Protocol) (private_port public_port lifetime : Nat) :
    (send (List.replicate 2 0) = none →
      send_public_address_request send = .error .NATPMP_ERR_NETWORKFAILURE) ∧
    (∀ n, send (List.replicate 2 0) = some n → n ≠ 2 →
      send_public_address_request send = .error .NATPMP_ERR_NETWORKFAILURE) ∧
    (send (List.replicate 2 0) = some 2 →
      send_public_address_request send = .ok ()) ∧
    (send (port_mapping_request protocol private_port public_port lifetime) = none →
      send_port_mapping_request send protocol private_port public_port lifetime =
        .error .NATPMP_ERR_NETWORKFAILURE) ∧
    (∀ n,
      send (port_mapping_request protocol private_port public_port lifetime) = some n →
      n ≠ 12 →
      send_port_mapping_request send protocol private_port public_port lifetime =
        .error .NATPMP_ERR_NETWORKFAILURE) ∧
    (send (port_mapping_request protocol private_port public_port lifetime) = some 12 →
      send_port_mapping_request send protocol private_port public_port lifetime =
        .ok ()) := by
  refine ⟨?_, ?_, ?_, ?_, ?_, ?_⟩
  · intro h
    simp only [send_public_address_request]
    rw [h]
  · intro n h hn
    simp only [send_public_address_request]
    rw [h]
    exact if_pos hn
  · intro h
    simp only [send_public_address_request]
    rw [h]
    rfl
  · intro h
    simp only [send_port_mapping_request]
    rw [h]
  · intro n h hn
    simp only [send_port_mapping_request]
    rw [h]
    exact if_pos hn
  · intro h
    simp only [send_port_mapping_request]
    rw [h]
    rfl

theorem send_request_outcomes_witness :
    send_public_address_request (fun _ => some 2) = .ok () ∧
    send_port_mapping_request (fun _ => none) .UDP 80 443 3600 =
      .error .NATPMP_ERR_NETWORKFAILURE :=
  ⟨(send_request_outcomes (fun _ => some 2) .UDP 80 443 3600).2.2.1 rfl,
   (send_request_outcomes (fun _ => none) .UDP 80 443 3600).2.2.2.1 rfl⟩

/-- C9: encoding a mapping request yields exactly 12 bytes, and the
spec's request mirror decoder recovers the original protocol, ports
and lifetime from them (round-trip). -/
theorem port_mapping_request_round_trip (protocol : Protocol)
    (private_port public_port lifetime : Nat)
    (hp : private_port < 2 ^ 16) (hq : public_port < 2 ^ 16)
    (hl : lifetime < 2 ^ 32) :
    (port_mapping_request protocol private_port public_port lifetime).length = 12 ∧
    decode_port_mapping_request
        (port_mapping_request protocol private_port public_port lifetime) =
      (protocol, private_port, public_port, lifetime) := by
  refine ⟨rfl, ?_⟩
  unfold decode_port_mapping_request port_mapping_request
  cases protocol <;>
    simp [be16_split _ hp, be16_split _ hq, be32_split _ hl]

theorem port_mapping_request_round_trip_witness :
    decode_port_mapping_request (port_mapping_request .TCP 8080 8081 7200) =
      (Protocol.TCP, 8080, 8081, 7200) :=
  (port_mapping_request_round_trip .TCP 8080 8081 7200
    (by decide) (by decide) (by norm_num)).2

/-- C10: after a successful receive, the decoded result depends only
on the 16-byte buffer contents, never on the reported byte count: the
count is discarded, a short datagram is decoded against the
zero-initialised remainder of the buffer, and a zero-length datagram
on the first attempt decodes as version 0, opcode 0 and fails with
`UnsupportedOpcode`. -/
theorem read_response_or_retry_ignores_count (data : List Nat)
    (n n' : Nat) (rest rest' : List (Option (List Nat × Nat))) :
    read_response_or_retry (some (data, n) :: rest) =
      decode_response (recv_buffer data) ∧
    read_response_or_retry (some (data, n) :: rest) =
      read_response_or_retry (some (data, n') :: rest') ∧
    (∀ i, data.length ≤ i → (recv_buffer data).getD i 0 = 0) ∧
    read_response_or_retry (some ([], n) :: rest) =
      .error .NATPMP_ERR_UNSUPPORTEDOPCODE := by
  refine ⟨rfl, rfl, ?_, rfl⟩
  intro i hi
  unfold recv_buffer
  rw [List.getD_append_right _ _ _ _ hi]
  rcases Nat.lt_or_ge (i - data.length) (16 - data.length) with h | h
  · rw [List.getD_eq_getElem _ _ (by simpa using h)]
    simp
  · exact List.getD_eq_default _ _ (by simpa using h)

end Natpmp
